import Mathlib

/-!
Verification of the chat / presence client logic of `static/js/stream.js`
(StrophenBoost).  The JavaScript functions are embedded shallowly: DOM state
(the chat input, the message container, the displayed viewer count, the chat
placeholder) is passed explicitly, socket emissions and alerts are returned
as data, and machine strings are Lean `String`s (JavaScript `trim` is
modelled by `jsTrim` below, `length` by `String.length`).
-/

namespace StreamJS

/-! ## escapeHtml (stream.js lines 810-814)

The source computes `div.textContent = text; return div.innerHTML`, i.e. the
browser's HTML serialization of a text node, which replaces the markup
significant characters by their character entities. -/

/-- Serialization of one character of a DOM text node: the browser's
`innerHTML` getter escapes the ampersand and the angle brackets. -/
def escapeChar (c : Char) : List Char :=
  if c = '&' then ['&', 'a', 'm', 'p', ';']
  else if c = '<' then ['&', 'l', 't', ';']
  else if c = '>' then ['&', 'g', 't', ';']
  else [c]

/-- Character-list form of `escapeHtml`. -/
def escapeList : List Char → List Char
  | [] => []
  | c :: rest => escapeChar c ++ escapeList rest

/-- Embedding of `escapeHtml(text)` from stream.js: assign `text` as the text
content of a fresh `div` and read back the serialized markup. -/
def escapeHtml (s : String) : String := ⟨escapeList s.data⟩

/-- How an HTML parser recovers the character data of serialized text: the
three entities produced by text-node serialization are decoded, every other
character stands for itself. -/
def unescapeChars : List Char → List Char
  | [] => []
  | '&' :: 'a' :: 'm' :: 'p' :: ';' :: rest => '&' :: unescapeChars rest
  | '&' :: 'l' :: 't' :: ';' :: rest => '<' :: unescapeChars rest
  | '&' :: 'g' :: 't' :: ';' :: rest => '>' :: unescapeChars rest
  | c :: rest => c :: unescapeChars rest

/-- String form of `unescapeChars`. -/
def unescapeHtml (s : String) : String := ⟨unescapeChars s.data⟩

/-! ## JavaScript String.prototype.trim -/

/-- JavaScript whitespace for `trim()` (the ASCII white-space and line
terminator characters; the chat client only ever deals with these). -/
def jsWhitespace (c : Char) : Bool :=
  c = ' ' || c = '\t' || c = '\n' || c = '\r' || c = '\x0b' || c = '\x0c'

/-- Drop the leading JavaScript whitespace of a character list. -/
def dropLeadingWs : List Char → List Char
  | [] => []
  | c :: rest => if jsWhitespace c then dropLeadingWs rest else c :: rest

/-- Embedding of JavaScript `s.trim()`: strip whitespace from both ends. -/
def jsTrim (s : String) : String :=
  ⟨(dropLeadingWs ((dropLeadingWs s.data).reverse)).reverse⟩

/-! ## sendChatMessage (stream.js lines 661-685) -/

/-- An alert raised through `showAlert(type, message)`. -/
structure AlertCall where
  level : String
  text : String
  deriving DecidableEq, Repr

/-- Payload of the `send_message` socket event. -/
structure SendMessagePayload where
  stream_id : Option String
  message : String
  deriving DecidableEq, Repr

/-- Observable outcome of one `sendChatMessage()` call: the emitted
`send_message` payload if any, the alert shown if any, and the value left in
the chat input field. -/
structure SendOutcome where
  emitted : Option SendMessagePayload
  alert : Option AlertCall
  inputAfter : String
  deriving DecidableEq, Repr

/-- Embedding of `sendChatMessage()`: trims the input value, returns early on
an empty trimmed message, on a missing chat connection (with a warning), and
on a trimmed message longer than 500 characters (with a warning); otherwise
emits `send_message` with the trimmed message and clears the input field. -/
def sendChatMessage (inputValue : String) (isConnectedToChat : Bool)
    (currentStreamId : Option String) : SendOutcome :=
  let message := jsTrim inputValue
  if message = "" then
    { emitted := none, alert := none, inputAfter := inputValue }
  else if isConnectedToChat = false then
    { emitted := none
      alert := some { level := "warning"
                      text := "Not connected to chat. Please refresh the page." }
      inputAfter := inputValue }
  else if 500 < message.length then
    { emitted := none
      alert := some { level := "warning"
                      text := "Message too long (max 500 characters)" }
      inputAfter := inputValue }
  else
    { emitted := some { stream_id := currentStreamId, message := message }
      alert := none
      inputAfter := "" }

/-! ## Claims C1, C5, C10 -/

/-- C5: for every input string whose trimmed value is empty (empty or
whitespace-only), `sendChatMessage` emits no `send_message` event: the
message is rejected before any send, and the input field is untouched. -/
theorem sendChatMessage_rejects_empty (inputValue : String)
    (isConnectedToChat : Bool) (currentStreamId : Option String)
    (h : (jsTrim inputValue) = "") :
    (sendChatMessage inputValue isConnectedToChat currentStreamId).emitted = none ∧
    (sendChatMessage inputValue isConnectedToChat currentStreamId).inputAfter
      = inputValue := by
  simp [sendChatMessage, h]

/-- Witness for C5 at the whitespace-only input `"   "`. -/
theorem sendChatMessage_rejects_empty_witness :
    (sendChatMessage "   " true (some "42")).emitted = none :=
  (sendChatMessage_rejects_empty "   " true (some "42") (by decide)).1

/-- C1 counterexample: the claim quantifies over every input string with no
leading/trailing whitespace, but the empty string satisfies that and has
length 0 ≤ 500, yet no `send_message` is emitted even while connected; and a
short trimmed message is also not emitted when the client is not connected
to chat. -/
theorem sendChatMessage_not_emitting_at_500_counterexample :
    jsTrim "" = "" ∧ ("" : String).length ≤ 500 ∧
    (sendChatMessage "" true (some "42")).emitted = none ∧
    jsTrim "hi" = "hi" ∧ ("hi" : String).length ≤ 500 ∧
    (sendChatMessage "hi" false (some "42")).emitted = none := by
  decide

/-- C1 (amended): for every non-empty input string `message` with no
leading/trailing whitespace, when the client is connected to chat,
`sendChatMessage` emits a `send_message` event carrying `message` whenever
`message.length` is at most 500 (so a 500-character body is accepted and
sent), and when `message.length` exceeds 500 it emits nothing and shows the
warning `Message too long (max 500 characters)`. -/
theorem sendChatMessage_length_limit (message : String)
    (hTrim : jsTrim message = message) (hNe : message ≠ "")
    (currentStreamId : Option String) :
    (message.length ≤ 500 →
      sendChatMessage message true currentStreamId =
        { emitted := some { stream_id := currentStreamId, message := message }
          alert := none
          inputAfter := "" }) ∧
    (500 < message.length →
      (sendChatMessage message true currentStreamId).emitted = none ∧
      (sendChatMessage message true currentStreamId).alert =
        some { level := "warning"
               text := "Message too long (max 500 characters)" }) := by
  constructor
  · intro hLen
    simp [sendChatMessage, hTrim, hNe, Nat.not_lt.mpr hLen]
  · intro hLen
    simp [sendChatMessage, hTrim, hNe, hLen]

/-- Witness for C1 at the concrete connected send of `"hello"`. -/
theorem sendChatMessage_length_limit_witness :
    sendChatMessage "hello" true (some "42") =
      { emitted := some { stream_id := some "42", message := "hello" }
        alert := none
        inputAfter := "" } :=
  (sendChatMessage_length_limit "hello" (by decide) (by decide) (some "42")).1
    (by decide)

/-- C10: `sendChatMessage` clears the chat input exactly when it emits a
`send_message` event: each of the three guard paths (empty trimmed message,
not connected to chat, trimmed message over 500 characters) returns without
emitting and leaves the input unchanged, an emitting call leaves the input
empty, and a non-emitting call can only be one of the three guard paths. -/
theorem sendChatMessage_clears_input_iff_emit (inputValue : String)
    (isConnectedToChat : Bool) (currentStreamId : Option String) :
    (((jsTrim inputValue) = "" ∨ isConnectedToChat = false ∨
        500 < (jsTrim inputValue).length) →
      (sendChatMessage inputValue isConnectedToChat currentStreamId).emitted
          = none ∧
      (sendChatMessage inputValue isConnectedToChat currentStreamId).inputAfter
          = inputValue) ∧
    ((sendChatMessage inputValue isConnectedToChat currentStreamId).emitted.isSome →
      (sendChatMessage inputValue isConnectedToChat currentStreamId).inputAfter
          = "") ∧
    ((sendChatMessage inputValue isConnectedToChat currentStreamId).emitted = none →
      (jsTrim inputValue) = "" ∨ isConnectedToChat = false ∨
        500 < (jsTrim inputValue).length) := by
  by_cases h1 : (jsTrim inputValue) = ""
  · simp [sendChatMessage, h1]
  · by_cases h2 : isConnectedToChat = false
    · simp [sendChatMessage, h1, h2]
    · by_cases h3 : 500 < (jsTrim inputValue).length
      · simp [sendChatMessage, h1, h2, h3]
      · simp [sendChatMessage, h1, h2, h3]

set_option maxRecDepth 100000 in
/-- Witness for C10 at the over-long guard: a 501-character input is not
emitted and the input field keeps its value. -/
theorem sendChatMessage_clears_input_iff_emit_witness :
    (sendChatMessage ⟨List.replicate 501 'a'⟩ true (some "42")).emitted = none ∧
    (sendChatMessage ⟨List.replicate 501 'a'⟩ true (some "42")).inputAfter
      = ⟨List.replicate 501 'a'⟩ :=
  (sendChatMessage_clears_input_iff_emit ⟨List.replicate 501 'a'⟩ true
      (some "42")).1 (Or.inr (Or.inr (by decide)))

/-! ## The chat message container (stream.js lines 687-759)

A node of the `chatMessages` container is either a chat message `div`
(class `chat-message`, as built by `addChatMessage`) or a system message
`div` (class `system-message`, as built by `addSystemMessage`).  For a chat
message we record the interpolated username, the body HTML of its `<p>`
element, the `data-timestamp` attribute, the bot flag, the
`data-message-id` attribute (an `Option`, `none` when the attribute is
absent) and whether the `text-muted` class has been added. -/

inductive ChatNode where
  | message (username : String) (bodyHtml : String) (timestamp : String)
      (isBot : Bool) (dataMessageId : Option String) (textMuted : Bool)
  | system (innerHtml : String)
  deriving DecidableEq, Repr

/-- Whether a container node matches the `.chat-message` selector. -/
def ChatNode.isChatMessage : ChatNode → Bool
  | .message .. => true
  | .system _ => false

/-- The `data-message-id` attribute of a node (`none` when absent). -/
def ChatNode.messageId : ChatNode → Option String
  | .message _ _ _ _ mid _ => mid
  | .system _ => none

/-- The message `div` built by `addChatMessage`: `addChatMessage` sets only
the `data-timestamp` attribute (never `data-message-id`), interpolates the
username raw and the body through `escapeHtml`. -/
def renderChatMessage (username message timestamp : String) (isBot : Bool) :
    ChatNode :=
  .message username (escapeHtml message) timestamp isBot none false

/-- Step `messages[0].remove()` where `messages` is the `.chat-message` node
list: drop the first chat-message node of the container, in document
order. -/
def removeFirstChatMessage : List ChatNode → List ChatNode
  | [] => []
  | n :: rest =>
    if n.isChatMessage then rest else n :: removeFirstChatMessage rest

/-- Embedding of `addChatMessage(username, message, timestamp, isBot)`:
append the rendered message `div` and, if the container then holds more
than 100 `.chat-message` nodes, remove the first one. -/
def addChatMessage (container : List ChatNode)
    (username message timestamp : String) (isBot : Bool) : List ChatNode :=
  let c := container ++ [renderChatMessage username message timestamp isBot]
  if 100 < (c.filter ChatNode.isChatMessage).length then
    removeFirstChatMessage c
  else c

/-- Embedding of `addSystemMessage(message)` (stream.js lines 735-749):
append a system `div` whose text is the escaped message. -/
def addSystemMessage (container : List ChatNode) (message : String) :
    List ChatNode :=
  container ++ [.system (escapeHtml message)]

/-- Embedding of `removeMessage(messageId)` (stream.js lines 751-759): for
every `.chat-message` node whose `dataset.messageId` strictly equals the
given id, add the `text-muted` class and replace its `<p>` body with
`<em>[Message deleted]</em>`.  A node without the `data-message-id`
attribute has `dataset.messageId === messageId` false for every string. -/
def removeMessage (messageId : String) (container : List ChatNode) :
    List ChatNode :=
  container.map fun n =>
    match n with
    | .message u b t bot mid muted =>
      if mid = some messageId then
        .message u "<em>[Message deleted]</em>" t bot mid true
      else .message u b t bot mid muted
    | .system h => .system h

/-! ## Payloads and event handlers registered by initializeChat -/

/-- One entry of a `chat_history` payload (also the shape of a
`new_message` payload). -/
structure HistMsg where
  username : String
  message : String
  timestamp : String
  is_bot : Bool
  deriving DecidableEq, Repr

/-- One `addChatMessage` step over a history entry. -/
def chatStep (c : List ChatNode) (m : HistMsg) : List ChatNode :=
  addChatMessage c m.username m.message m.timestamp m.is_bot

/-- The node rendered for a history entry. -/
def renderMsg (m : HistMsg) : ChatNode :=
  renderChatMessage m.username m.message m.timestamp m.is_bot

/-- The container after a sequence of `addChatMessage` calls starting from
an empty `chatMessages` element. -/
def containerAfter (msgs : List HistMsg) : List ChatNode :=
  msgs.foldl chatStep []

/-- DOM state touched by the chat event handlers: the `chatMessages`
container, the `chatUserCount` text and the `chatPlaceholder` (`some s`
when shown with text `s`, `none` when hidden). -/
structure ChatState where
  container : List ChatNode
  displayedUserCount : Nat
  placeholder : Option String
  deriving DecidableEq, Repr

/-- The chat DOM as the page starts: empty container. -/
def initialChatState : ChatState :=
  { container := [], displayedUserCount := 0, placeholder := none }

/-- Embedding of `updateChatUserCount(count)` (stream.js lines 761-766). -/
def updateChatUserCount (count : Nat) (st : ChatState) : ChatState :=
  { st with displayedUserCount := count }

/-- JavaScript `n || 0` on an optional numeric field: `0` when the field is
absent, otherwise the value (`0 || 0` is `0`). -/
def jsOrZero : Option Nat → Nat
  | none => 0
  | some n => n

/-- Embedding of the `chat_history` handler (stream.js lines 605-617): when
the payload has a non-empty `messages` array, hide the placeholder and
`addChatMessage` each entry in array order; otherwise show the empty-chat
placeholder. -/
def chatHistoryHandler (messages : Option (List HistMsg)) (st : ChatState) :
    ChatState :=
  match messages with
  | some msgs =>
    if 0 < msgs.length then
      { st with placeholder := none, container := msgs.foldl chatStep st.container }
    else
      { st with placeholder := some "No messages yet. Start the conversation!" }
  | none =>
    { st with placeholder := some "No messages yet. Start the conversation!" }

/-- Embedding of the `user_joined` handler (stream.js lines 625-629). -/
def userJoinedHandler (username : String) (user_count : Option Nat)
    (st : ChatState) : ChatState :=
  let st1 := updateChatUserCount (jsOrZero user_count) st
  { st1 with
    container := addSystemMessage st1.container (username ++ " joined the chat") }

/-- Embedding of the `user_left` handler (stream.js lines 631-635). -/
def userLeftHandler (username : String) (user_count : Option Nat)
    (st : ChatState) : ChatState :=
  let st1 := updateChatUserCount (jsOrZero user_count) st
  { st1 with
    container := addSystemMessage st1.container (username ++ " left the chat") }

/-- Embedding of the `message_blocked` handler (stream.js lines 637-639):
show a warning alert and touch nothing else; returns the unchanged DOM
state and the alert. -/
def messageBlockedHandler (reason : String) (st : ChatState) :
    ChatState × AlertCall :=
  (st, { level := "warning", text := "Message blocked: " ++ reason })

/-- Embedding of the `message_deleted` handler (stream.js lines 641-643). -/
def messageDeletedHandler (message_id : String) (st : ChatState) : ChatState :=
  { st with container := removeMessage message_id st.container }

/-! ## The bounded-container fold lemmas -/

/-- Abstract sliding-window step: append, and drop the head beyond 100
entries. -/
def windowStep {α : Type} (l : List α) (x : α) : List α :=
  if 100 < (l ++ [x]).length then (l ++ [x]).tail else l ++ [x]

lemma removeFirstChatMessage_allChat (l : List ChatNode)
    (h : ∀ n ∈ l, n.isChatMessage = true) :
    removeFirstChatMessage l = l.tail := by
  cases l with
  | nil => rfl
  | cons n rest =>
    simp [removeFirstChatMessage, h n (List.mem_cons_self n rest)]

lemma chatStep_allChat (c : List ChatNode) (m : HistMsg)
    (h : ∀ n ∈ c, n.isChatMessage = true) :
    chatStep c m = windowStep c (renderMsg m) := by
  have hall : ∀ n ∈ c ++ [renderMsg m], n.isChatMessage = true := by
    intro n hn
    rcases List.mem_append.mp hn with hc | hx
    · exact h n hc
    · simp only [List.mem_singleton] at hx
      subst hx
      rfl
  have hfilter : (c ++ [renderMsg m]).filter ChatNode.isChatMessage
      = c ++ [renderMsg m] := List.filter_eq_self.mpr hall
  unfold chatStep addChatMessage windowStep
  simp only [renderMsg] at *
  rw [hfilter]
  split
  · exact removeFirstChatMessage_allChat _ hall
  · rfl

lemma chatStep_preserves_allChat (c : List ChatNode) (m : HistMsg)
    (h : ∀ n ∈ c, n.isChatMessage = true) :
    ∀ n ∈ chatStep c m, n.isChatMessage = true := by
  intro n hn
  have hall : ∀ x ∈ c ++ [renderChatMessage m.username m.message m.timestamp m.is_bot],
      x.isChatMessage = true := by
    intro x hx
    rcases List.mem_append.mp hx with hc | hs
    · exact h x hc
    · simp only [List.mem_singleton] at hs
      subst hs
      rfl
  unfold chatStep addChatMessage at hn
  simp only at hn
  split at hn
  · have : n ∈ c ++ [renderChatMessage m.username m.message m.timestamp m.is_bot] := by
      rw [removeFirstChatMessage_allChat _ hall] at hn
      exact List.tail_subset _ hn
    exact hall n this
  · exact hall n hn

lemma foldl_chatStep_eq_window (msgs : List HistMsg) (c : List ChatNode)
    (hc : ∀ n ∈ c, n.isChatMessage = true) :
    msgs.foldl chatStep c = (msgs.map renderMsg).foldl windowStep c := by
  induction msgs generalizing c with
  | nil => rfl
  | cons m rest ih =>
    simp only [List.foldl_cons, List.map_cons]
    rw [chatStep_allChat c m hc]
    exact ih (windowStep c (renderMsg m))
      (by rw [← chatStep_allChat c m hc]; exact chatStep_preserves_allChat c m hc)

lemma foldl_windowStep_drop {α : Type} (xs : List α) :
    xs.foldl windowStep [] = xs.drop (xs.length - 100) := by
  induction xs using List.reverseRecOn with
  | nil => rfl
  | append_singleton ys x ih =>
    rw [List.foldl_append, List.foldl_cons, List.foldl_nil, ih]
    unfold windowStep
    by_cases h : ys.length < 100
    · have h0 : ys.length - 100 = 0 := by omega
      rw [h0, List.drop_zero]
      have hcond : ¬ 100 < (ys ++ [x]).length := by
        rw [List.length_append, List.length_singleton]; omega
      rw [if_neg hcond, List.length_append, List.length_singleton]
      have h1 : ys.length + 1 - 100 = 0 := by omega
      rw [h1, List.drop_zero]
    · push_neg at h
      have hlen : (ys.drop (ys.length - 100)).length = 100 := by
        rw [List.length_drop]; omega
      have hcond : 100 < (ys.drop (ys.length - 100) ++ [x]).length := by
        rw [List.length_append, hlen, List.length_singleton]; omega
      rw [if_pos hcond]
      have hne : ys.drop (ys.length - 100) ≠ [] := by
        intro hnil
        rw [hnil] at hlen
        simp at hlen
      rw [List.tail_append_of_ne_nil hne, List.tail_drop]
      have harith : ys.length - 100 + 1 = ys.length + 1 - 100 := by omega
      have hle : ys.length + 1 - 100 ≤ ys.length := by omega
      rw [harith, List.length_append, List.length_singleton,
        List.drop_append_of_le_length hle]

lemma containerAfter_eq_drop (msgs : List HistMsg) :
    containerAfter msgs = (msgs.map renderMsg).drop (msgs.length - 100) := by
  unfold containerAfter
  rw [foldl_chatStep_eq_window msgs [] (by intro n hn; cases hn),
    foldl_windowStep_drop]
  rw [List.length_map]

/-! ## Claims C2, C3, C4, C7, C8 -/

lemma removeMessage_of_no_id (mid : String) (c : List ChatNode)
    (h : ∀ n ∈ c, n.messageId = none) : removeMessage mid c = c := by
  induction c with
  | nil => rfl
  | cons n rest ih =>
    have hn : n.messageId = none := h n (List.mem_cons_self n rest)
    have hrest : removeMessage mid rest = rest :=
      ih fun x hx => h x (List.mem_cons_of_mem n hx)
    cases n with
    | message u b t bot nid muted =>
      simp only [ChatNode.messageId] at hn
      subst hn
      simpa [removeMessage] using hrest
    | system s =>
      simpa [removeMessage] using hrest

lemma containerAfter_no_id (msgs : List HistMsg) :
    ∀ n ∈ containerAfter msgs, n.messageId = none := by
  intro n hn
  rw [containerAfter_eq_drop] at hn
  have hn' : n ∈ msgs.map renderMsg := List.drop_subset _ _ hn
  obtain ⟨m, _, rfl⟩ := List.mem_map.mp hn'
  rfl

/-- C2 (code-bug evidence): `addChatMessage` never sets the
`data-message-id` attribute, so every node of a container built by
`addChatMessage` calls has none, `dataset.messageId === message_id` is false
for every id, and the `message_deleted` handler leaves the whole chat DOM
state unchanged — no message body is ever replaced by the
`[Message deleted]` placeholder. -/
theorem message_deleted_never_marks (mid : String) (msgs : List HistMsg)
    (count : Nat) (ph : Option String) :
    messageDeletedHandler mid
        { container := containerAfter msgs, displayedUserCount := count,
          placeholder := ph } =
      { container := containerAfter msgs, displayedUserCount := count,
        placeholder := ph } := by
  simp only [messageDeletedHandler,
    removeMessage_of_no_id mid (containerAfter msgs) (containerAfter_no_id msgs)]

/-- Concrete evaluation of the C2 failing input: the single message rendered
for alice keeps its body `hi` (never the `[Message deleted]` placeholder)
after a `message_deleted` event for its id. -/
lemma messageDeleted_concrete_eval :
    (messageDeletedHandler "7"
        { container := containerAfter [⟨"alice", "hi", "t0", false⟩],
          displayedUserCount := 0, placeholder := none }).container =
      [ChatNode.message "alice" "hi" "t0" false none false] := by
  decide

/-- C3: after any sequence of `addChatMessage` calls on an initially empty
message container, the container is exactly the most recent (at most 100)
rendered messages in arrival order — so it never holds more than 100 chat
messages, and whenever an append would exceed 100 the oldest message has
been dropped. -/
theorem addChatMessage_container_bounded (msgs : List HistMsg) :
    containerAfter msgs = (msgs.map renderMsg).drop (msgs.length - 100) ∧
    (containerAfter msgs).length ≤ 100 := by
  refine ⟨containerAfter_eq_drop msgs, ?_⟩
  rw [containerAfter_eq_drop msgs, List.length_drop, List.length_map]
  omega

/-- C4: for every `chat_history` payload with a non-empty `messages` array,
the handler appends the rendered messages to the (empty) container in
exactly payload order; in particular every payload of at most 100 entries
appears in full, oldest first, with no entry omitted (beyond 100 entries
the container keeps the most recent 100, the documented bound of
`addChatMessage`). -/
theorem chat_history_renders_all_in_order (msgs : List HistMsg)
    (h : msgs ≠ []) :
    (chatHistoryHandler (some msgs) initialChatState).container
        = (msgs.map renderMsg).drop (msgs.length - 100) ∧
    (msgs.length ≤ 100 →
      (chatHistoryHandler (some msgs) initialChatState).container
        = msgs.map renderMsg) := by
  have hlen : 0 < msgs.length := List.length_pos.mpr h
  have hc : (chatHistoryHandler (some msgs) initialChatState).container
      = containerAfter msgs := by
    simp [chatHistoryHandler, hlen, initialChatState, containerAfter]
  refine ⟨by rw [hc]; exact containerAfter_eq_drop msgs, fun hle => ?_⟩
  rw [hc, containerAfter_eq_drop msgs]
  have h0 : msgs.length - 100 = 0 := by omega
  rw [h0, List.drop_zero]

/-- Witness for C4 at a two-entry history payload. -/
theorem chat_history_renders_all_in_order_witness :
    (chatHistoryHandler
        (some [⟨"alice", "hi", "t0", false⟩, ⟨"bob", "yo", "t1", true⟩])
        initialChatState).container
      = [renderMsg ⟨"alice", "hi", "t0", false⟩,
         renderMsg ⟨"bob", "yo", "t1", true⟩] := by
  rw [(chat_history_renders_all_in_order
      [⟨"alice", "hi", "t0", false⟩, ⟨"bob", "yo", "t1", true⟩]
      (by decide)).2 (by decide)]
  rfl

/-- C7: the `user_joined` handler sets the displayed chat viewer count to
the payload's `user_count` and appends the system message
`<username> joined the chat`; symmetrically `user_left` sets the count and
appends `<username> left the chat`.  Nothing else of the chat DOM state is
touched. -/
theorem presence_handlers_update_count_and_append (username : String)
    (n : Nat) (st : ChatState) :
    userJoinedHandler username (some n) st =
      { st with displayedUserCount := n,
                container := st.container ++
                  [ChatNode.system (escapeHtml (username ++ " joined the chat"))] } ∧
    userLeftHandler username (some n) st =
      { st with displayedUserCount := n,
                container := st.container ++
                  [ChatNode.system (escapeHtml (username ++ " left the chat"))] } := by
  cases st
  exact ⟨rfl, rfl⟩

/-- C8: the `message_blocked` handler shows the sender a warning alert
`Message blocked: <reason>` with the reason string used verbatim as opaque
text, and leaves the chat DOM state — in particular the rendered message
list — completely unchanged. -/
theorem message_blocked_alert_only (reason : String) (st : ChatState) :
    messageBlockedHandler reason st =
      (st, { level := "warning", text := "Message blocked: " ++ reason }) ∧
    (messageBlockedHandler reason st).1.container = st.container :=
  ⟨rfl, rfl⟩

/-! ## Stream room join/leave (stream.js lines 182-209, 549-555) -/

/-- Socket events emitted by the stream-page script. -/
inductive StreamEvent where
  | joinStream (stream_id : String) (username : String)
  | leaveStream (stream_id : String) (username : String)
  deriving DecidableEq, Repr

/-- Embedding of `joinStreamRoom(streamId)`: set `currentStreamId` and emit
`join_stream` (the username argument is the resolved
`window.sessionUsername || 'Anonymous_…'` value). -/
def joinStreamRoom (streamId username : String) (_currentStreamId : Option String) :
    Option String × List StreamEvent :=
  (some streamId, [.joinStream streamId username])

/-- Embedding of `leaveStreamRoom()`: when `currentStreamId` is set, emit
`leave_stream` and clear it; otherwise do nothing. -/
def leaveStreamRoom (username : String) (currentStreamId : Option String) :
    Option String × List StreamEvent :=
  match currentStreamId with
  | some sid => (none, [.leaveStream sid username])
  | none => (none, [])

/-- Run `n` consecutive `leaveStreamRoom()` calls, accumulating the emitted
events. -/
def leaveStreamRoomIter (username : String) :
    Option String → Nat → Option String × List StreamEvent
  | s, 0 => (s, [])
  | s, n + 1 =>
    let r1 := leaveStreamRoom username s
    let r2 := leaveStreamRoomIter username r1.1 n
    (r2.1, r1.2 ++ r2.2)

lemma leaveStreamRoomIter_none (username : String) (n : Nat) :
    leaveStreamRoomIter username none n = (none, []) := by
  induction n with
  | zero => rfl
  | succ m ih => simp [leaveStreamRoomIter, leaveStreamRoom, ih]

/-- C6: after joining a stream room, any positive number of
`leaveStreamRoom` calls emits exactly one `leave_stream` event in total:
the first call emits it and clears `currentStreamId`, and every later call
is a no-op. -/
theorem leaveStreamRoom_emits_once (sid juser luser : String)
    (prior : Option String) (n : Nat) (h : 1 ≤ n) :
    leaveStreamRoom luser (joinStreamRoom sid juser prior).1
        = (none, [.leaveStream sid luser]) ∧
    leaveStreamRoom luser none = (none, []) ∧
    leaveStreamRoomIter luser (joinStreamRoom sid juser prior).1 n
        = (none, [.leaveStream sid luser]) := by
  obtain ⟨m, rfl⟩ : ∃ m, n = m + 1 := ⟨n - 1, by omega⟩
  exact ⟨rfl, rfl, by
    simp [leaveStreamRoomIter, joinStreamRoom, leaveStreamRoom,
      leaveStreamRoomIter_none]⟩

/-- Witness for C6: three consecutive leaves after joining room `42` emit a
single `leave_stream`. -/
theorem leaveStreamRoom_emits_once_witness :
    leaveStreamRoomIter "bob" (joinStreamRoom "42" "alice" none).1 3
      = (none, [.leaveStream "42" "bob"]) :=
  (leaveStreamRoom_emits_once "42" "alice" "bob" none 3 (by decide)).2.2

/-! ## The innerHTML template of addChatMessage (stream.js lines 706-721)

The template literal is modelled as concatenation of its constant chunks
with the three class selectors, the raw username, the formatted time and the
escaped body (inter-element indentation whitespace elided; the time string
produced by `toLocaleTimeString` is taken as an input since it depends on
the runtime locale). -/

/-- The avatarClass selector of stream.js line 702. -/
def avatarClass (isBot : Bool) : String :=
  if isBot then "bg-success" else "bg-primary"

/-- The nameClass selector of stream.js line 703. -/
def nameClass (isBot : Bool) : String :=
  if isBot then "text-success" else "text-primary"

/-- The iconClass selector of stream.js line 704. -/
def iconClass (isBot : Bool) : String :=
  if isBot then "fas fa-robot" else "fas fa-user"

/-- Template text before the avatar class. -/
def htmlChunk1 : String :=
  "<div class=\"d-flex align-items-start gap-2\"><div class=\"flex-shrink-0\"><div class=\"avatar-sm "

/-- Template text between the avatar class and the icon class. -/
def htmlChunk2 : String :=
  " rounded-circle d-flex align-items-center justify-content-center\" style=\"width: 32px; height: 32px;\"><i class=\""

/-- Template text between the icon class and the name class. -/
def htmlChunk3 : String :=
  " text-white\" style=\"font-size: 12px;\"></i></div></div><div class=\"flex-grow-1\"><div class=\"d-flex align-items-center gap-2 mb-1\"><strong class=\""

/-- Template text between the name class and the username. -/
def htmlChunk4 : String := "\" style=\"font-size: 14px;\">"

/-- Template text between the username and the time. -/
def htmlChunk5 : String :=
  "</strong><small class=\"text-muted\" style=\"font-size: 11px;\">"

/-- Template text between the time and the escaped body. -/
def htmlChunk6 : String :=
  "</small></div><p class=\"mb-0\" style=\"font-size: 13px; line-height: 1.4;\">"

/-- Template text after the escaped body. -/
def htmlChunk7 : String := "</p></div></div>"

/-- The `innerHTML` assigned to the message `div` by `addChatMessage`: the
username and time are interpolated raw, the body through `escapeHtml`. -/
def messageInnerHTML (username message timeStr : String) (isBot : Bool) :
    String :=
  htmlChunk1 ++ avatarClass isBot ++ htmlChunk2 ++ iconClass isBot ++
    htmlChunk3 ++ nameClass isBot ++ htmlChunk4 ++ username ++ htmlChunk5 ++
    timeStr ++ htmlChunk6 ++ escapeHtml message ++ htmlChunk7

/-! ## Escaping lemmas for C9 -/

lemma unescapeChars_amp (r : List Char) :
    unescapeChars ('&' :: 'a' :: 'm' :: 'p' :: ';' :: r)
      = '&' :: unescapeChars r := rfl

lemma unescapeChars_lt (r : List Char) :
    unescapeChars ('&' :: 'l' :: 't' :: ';' :: r)
      = '<' :: unescapeChars r := rfl

lemma unescapeChars_gt (r : List Char) :
    unescapeChars ('&' :: 'g' :: 't' :: ';' :: r)
      = '>' :: unescapeChars r := rfl

lemma unescapeChars_cons (c : Char) (r : List Char) (h : c ≠ '&') :
    unescapeChars (c :: r) = c :: unescapeChars r := by
  rw [unescapeChars.eq_def]
  split
  all_goals simp_all

lemma unescapeChars_escapeList (l : List Char) :
    unescapeChars (escapeList l) = l := by
  induction l with
  | nil => rfl
  | cons c l ih =>
    rw [escapeList]
    by_cases hamp : c = '&'
    · subst hamp
      rw [show escapeChar '&' ++ escapeList l
          = '&' :: 'a' :: 'm' :: 'p' :: ';' :: escapeList l from rfl]
      rw [unescapeChars_amp, ih]
    · by_cases hlt : c = '<'
      · subst hlt
        rw [show escapeChar '<' ++ escapeList l
            = '&' :: 'l' :: 't' :: ';' :: escapeList l from rfl]
        rw [unescapeChars_lt, ih]
      · by_cases hgt : c = '>'
        · subst hgt
          rw [show escapeChar '>' ++ escapeList l
              = '&' :: 'g' :: 't' :: ';' :: escapeList l from rfl]
          rw [unescapeChars_gt, ih]
        · have he : escapeChar c = [c] := by simp [escapeChar, hamp, hlt, hgt]
          rw [he, List.singleton_append, unescapeChars_cons c _ hamp, ih]

lemma escapeList_no_angle (l : List Char) :
    ∀ c ∈ escapeList l, c ≠ '<' ∧ c ≠ '>' := by
  induction l with
  | nil => intro c hc; cases hc
  | cons a l ih =>
    intro c hc
    rw [escapeList] at hc
    rcases List.mem_append.mp hc with h1 | h2
    · unfold escapeChar at h1
      split_ifs at h1 with ha hb hcg
      · simp only [List.mem_cons, List.not_mem_nil, or_false] at h1
        rcases h1 with rfl | rfl | rfl | rfl | rfl <;> exact ⟨by decide, by decide⟩
      · simp only [List.mem_cons, List.not_mem_nil, or_false] at h1
        rcases h1 with rfl | rfl | rfl | rfl <;> exact ⟨by decide, by decide⟩
      · simp only [List.mem_cons, List.not_mem_nil, or_false] at h1
        rcases h1 with rfl | rfl | rfl | rfl <;> exact ⟨by decide, by decide⟩
      · simp only [List.mem_singleton] at h1
        subst h1
        exact ⟨hb, hcg⟩
    · exact ih c h2

/-- C9: `escapeHtml` replaces the markup-significant characters of its
argument by character entities in a way an HTML text parser inverts exactly
(`unescapeHtml ∘ escapeHtml` is the identity) and whose output contains no
raw angle bracket, so no tag survives; `addChatMessage`'s markup carries the
body only through `escapeHtml` — hence a body containing markup is rendered
as literal text — while the username is interpolated into the markup
verbatim, with no escaping. -/
theorem escapeHtml_body_literal_username_raw (u m t : String) (b : Bool) :
    unescapeHtml (escapeHtml m) = m ∧
    (∀ c ∈ (escapeHtml m).data, c ≠ '<' ∧ c ≠ '>') ∧
    (∃ pre post, messageInnerHTML u m t b = pre ++ escapeHtml m ++ post) ∧
    (∃ pre post, messageInnerHTML u m t b = pre ++ u ++ post) := by
  refine ⟨?_, ?_, ?_, ?_⟩
  · show unescapeHtml ⟨escapeList m.data⟩ = m
    rw [show unescapeHtml ⟨escapeList m.data⟩
        = ⟨unescapeChars (escapeList m.data)⟩ from rfl]
    rw [unescapeChars_escapeList]
  · intro c hc
    exact escapeList_no_angle m.data c hc
  · exact ⟨htmlChunk1 ++ avatarClass b ++ htmlChunk2 ++ iconClass b ++
        htmlChunk3 ++ nameClass b ++ htmlChunk4 ++ u ++ htmlChunk5 ++
        t ++ htmlChunk6, htmlChunk7,
      by simp [messageInnerHTML, String.append_assoc]⟩
  · exact ⟨htmlChunk1 ++ avatarClass b ++ htmlChunk2 ++ iconClass b ++
        htmlChunk3 ++ nameClass b ++ htmlChunk4,
      htmlChunk5 ++ t ++ htmlChunk6 ++ escapeHtml m ++ htmlChunk7,
      by simp [messageInnerHTML, String.append_assoc]⟩

/-- Witness for C9: a body holding a script tag round-trips through
`escapeHtml` as literal text. -/
theorem escapeHtml_body_literal_username_raw_witness :
    unescapeHtml (escapeHtml "<b>hi & bye</b>") = "<b>hi & bye</b>" :=
  (escapeHtml_body_literal_username_raw "alice" "<b>hi & bye</b>" "00:00"
    false).1

end StreamJS

